import Mathlib

/-!
Shallow embedding of `cloudinary/api.py` (the admin-API client module of
pycloudinary): the exception taxonomy, the `Response` wrapper, `call_api`
configuration resolution and response dispatch, the `only` whitelist
helper, `transformation_string`, and the wrapper operations the claims
touch. Python dicts appear as association lists with unique keys
(keyword-argument dicts), Python values as the small `PyVal` type, and
decoded JSON bodies as `Json`. External collaborators (the process-wide
configuration store, `json.loads`, `email.utils.parsedate`, the
transformation-string generator, and the network) are parameters of the
embedded functions.
-/

set_option autoImplicit false

namespace Cloudinary

/-- Python values as they occur in this module: `None`, booleans, ints,
strings, lists and dicts. -/
inductive PyVal where
  | none
  | bool (b : Bool)
  | int (n : Int)
  | str (s : String)
  | list (xs : List PyVal)
  | dict (fields : List (String × PyVal))

/-- Keyword-argument dicts (`**options`) and parameter sets: association
lists keyed by strings, keys unique, insertion ordered. -/
abbrev Options := List (String × PyVal)

/-- Python truthiness (`bool(x)`) for the values of `PyVal`: `None`, `0`,
and empty strings, lists and dicts are falsy. -/
def truthy : PyVal → Bool
  | PyVal.none => false
  | PyVal.bool b => b
  | PyVal.int n => n != 0
  | PyVal.str s => !s.isEmpty
  | PyVal.list xs => !xs.isEmpty
  | PyVal.dict fs => !fs.isEmpty

/-- `str(x)` for the atomic values the module formats into URLs, auth
strings and messages. Container rendering is abridged: no modelled
operation applies `str` to a list or dict. -/
def pyToStr : PyVal → String
  | PyVal.none => "None"
  | PyVal.bool true => "True"
  | PyVal.bool false => "False"
  | PyVal.int n => toString n
  | PyVal.str s => s
  | PyVal.list _ => "[...]"
  | PyVal.dict _ => "\x7b...\x7d"

/-- `options.pop(key, default)`: the value under `key` when present (the
entry removed), otherwise the default with the dict unchanged. -/
def popD (options : Options) (key : String) (default : PyVal) : PyVal × Options :=
  match List.lookup key options with
  | some v => (v, options.eraseP (fun kv => kv.1 == key))
  | Option.none => (default, options)

/-- Exception classes raised by the module: the module taxonomy rooted at
`Error`, plus the Python built-ins it touches (`Exception`, and the
`KeyError` / `ValueError` / `TypeError` raised by dict and `int`
operations inside `Response.__init__` and the error-body access). -/
inductive ExcClass where
  | PyException
  | PyKeyError
  | PyValueError
  | PyTypeError
  | Error
  | NotFound
  | NotAllowed
  | AlreadyExists
  | RateLimited
  | BadRequest
  | GeneralError
  | AuthorizationRequired
deriving BEq, DecidableEq

/-- The inheritance chain of each exception class, the class itself
included, innermost first (Python built-in ancestors above `Exception`
are omitted). -/
def ExcClass.ancestors : ExcClass → List ExcClass
  | ExcClass.PyException => [ExcClass.PyException]
  | ExcClass.PyKeyError => [ExcClass.PyKeyError, ExcClass.PyException]
  | ExcClass.PyValueError => [ExcClass.PyValueError, ExcClass.PyException]
  | ExcClass.PyTypeError => [ExcClass.PyTypeError, ExcClass.PyException]
  | ExcClass.Error => [ExcClass.Error, ExcClass.PyException]
  | ExcClass.NotFound => [ExcClass.NotFound, ExcClass.Error, ExcClass.PyException]
  | ExcClass.NotAllowed => [ExcClass.NotAllowed, ExcClass.Error, ExcClass.PyException]
  | ExcClass.AlreadyExists => [ExcClass.AlreadyExists, ExcClass.Error, ExcClass.PyException]
  | ExcClass.RateLimited => [ExcClass.RateLimited, ExcClass.Error, ExcClass.PyException]
  | ExcClass.BadRequest => [ExcClass.BadRequest, ExcClass.Error, ExcClass.PyException]
  | ExcClass.GeneralError => [ExcClass.GeneralError, ExcClass.Error, ExcClass.PyException]
  | ExcClass.AuthorizationRequired =>
      [ExcClass.AuthorizationRequired, ExcClass.Error, ExcClass.PyException]

/-- `isinstance(e, base)` at the level of classes. -/
def isInstanceOf (c base : ExcClass) : Bool :=
  c.ancestors.contains base

/-- A raised exception: its class and its positional arguments (the
module only ever passes strings). -/
structure RaisedError where
  cls : ExcClass
  args : List String
deriving DecidableEq

/-- `repr` of a string as Python renders it inside an argument tuple
(quotes added; escaping of special characters is not modelled). -/
def pyRepr (s : String) : String := "\x27" ++ s ++ "\x27"

/-- `str(e)` for an exception: its sole argument when there is exactly
one, otherwise the rendering of the argument tuple. -/
def renderArgs : List String → String
  | [a] => a
  | args => "(" ++ String.intercalate ", " (args.map pyRepr) ++ ")"

/-- The `EXCEPTION_CODES` table mapping HTTP status codes to error
subtypes. -/
def EXCEPTION_CODES : List (Nat × ExcClass) :=
  [(400, ExcClass.BadRequest),
   (401, ExcClass.AuthorizationRequired),
   (403, ExcClass.NotAllowed),
   (404, ExcClass.NotFound),
   (409, ExcClass.AlreadyExists),
   (420, ExcClass.RateLimited),
   (500, ExcClass.GeneralError)]

/-- Decoded JSON values as returned by `json.loads`. -/
inductive Json where
  | null
  | bool (b : Bool)
  | num (n : Int)
  | str (s : String)
  | arr (elems : List Json)
  | obj (fields : List (String × Json))

/-- Dict subscription `j[k]` on a decoded body: `some` only when `j` is
an object holding `k` (Python raises `TypeError` or `KeyError`
otherwise; callers of this helper map `Option.none` to such a raise). -/
def jGet (j : Json) (k : String) : Option Json :=
  match j with
  | Json.obj fields => List.lookup k fields
  | _ => Option.none

/-- `k in result` for a decoded body (dict membership; non-dict bodies
do not reach this test in any modelled path). -/
def hasKey (j : Json) (k : String) : Bool :=
  (jGet j k).isSome

/-- `str(x)` of a decoded JSON leaf as it is formatted into an error
message; containers are abridged as in `pyToStr`. -/
def pyStrOfJson : Json → String
  | Json.null => "None"
  | Json.bool true => "True"
  | Json.bool false => "False"
  | Json.num n => toString n
  | Json.str s => s
  | Json.arr _ => "[...]"
  | Json.obj _ => "\x7b...\x7d"

/-- The process-wide configuration object `cloudinary.config()`: each
field is a string or `None`. -/
structure CloudinaryConfig where
  cloud_name : PyVal
  api_key : PyVal
  api_secret : PyVal
  upload_prefix : PyVal

/-- The four values `call_api` resolves at lines 298-304, plus the
options left over after the pops (consulted later only for `timeout`).
The source names the first field `prefix`. -/
structure ResolvedConfig where
  pfx : PyVal
  cloud_name : PyVal
  api_key : PyVal
  api_secret : PyVal
  rest : Options

/-- Lines 298-304 of `call_api`: pop each override from the options,
falling back to the process-wide configuration; default the upload
prefix when falsy; raise on a missing cloud name or API key. Line 304 of
the source tests `cloud_name` again where its message says
`api_secret`, and the embedding reproduces that test verbatim. -/
def resolve_config (options : Options) (cfg : CloudinaryConfig) : Except RaisedError ResolvedConfig :=
  let p1 := popD options "upload_prefix" cfg.upload_prefix
  let pfx := if truthy p1.1 then p1.1 else PyVal.str "https://api.cloudinary.com"
  let p2 := popD p1.2 "cloud_name" cfg.cloud_name
  if truthy p2.1 = false then Except.error ⟨ExcClass.PyException, ["Must supply cloud_name"]⟩ else
  let p3 := popD p2.2 "api_key" cfg.api_key
  if truthy p3.1 = false then Except.error ⟨ExcClass.PyException, ["Must supply api_key"]⟩ else
  let p4 := popD p3.2 "api_secret" cfg.api_secret
  if truthy p2.1 = false then Except.error ⟨ExcClass.PyException, ["Must supply api_secret"]⟩ else
  Except.ok ⟨pfx, p2.1, p3.1, p4.1, p4.2⟩

/-- Upper-casing of a character list (structural counterpart of
`str.upper`). -/
def upperChars : List Char → List Char
  | [] => []
  | c :: cs => c.toUpper :: upperChars cs

/-- Upper-casing of a string, as `method.upper()` applies it. -/
def strUpper (s : String) : String := String.mk (upperChars s.data)

/-- What `call_api` hands to `_http.request(method.upper(), api_url,
params, headers, **kw)`: the upper-cased method, the joined URL, the
parameter set, the basic-auth credential string, and the optional
timeout. -/
structure Request where
  method : String
  url : String
  fields : List (String × PyVal)
  basic_auth : String
  timeout : Option PyVal

/-- Lines 297-316 of `call_api`, up to the submission of the HTTP
request: resolve the configuration, join the URL, build the basic-auth
string, read the optional timeout. -/
def call_api_request (method : String) (uri : List String) (params : List (String × PyVal))
    (options : Options) (cfg : CloudinaryConfig) : Except RaisedError Request :=
  match resolve_config options cfg with
  | Except.error e => Except.error e
  | Except.ok rc =>
      Except.ok ⟨strUpper method,
        String.intercalate "/" ([pyToStr rc.pfx, "v1_1", pyToStr rc.cloud_name] ++ uri),
        params,
        pyToStr rc.api_key ++ ":" ++ pyToStr rc.api_secret,
        List.lookup "timeout" rc.rest⟩

/-- The observable outcome of `_http.request`: an `HTTPError` from the
client (its `.message` text), a `socket.error` (its `str`), or a
response carrying status, headers and raw body. -/
inductive TransportOutcome where
  | httpError (msg : String)
  | socketError (msg : String)
  | ok (status : Nat) (headers : List (String × String)) (body : String)

/-- Lower-casing of a character list (structural counterpart of
`str.lower`). -/
def lowerChars : List Char → List Char
  | [] => []
  | c :: cs => c.toLower :: lowerChars cs

/-- Lower-casing of a string. -/
def strLower (s : String) : String := String.mk (lowerChars s.data)

/-- Header lookup on `response.headers`: urllib3 header dicts are
case-insensitive. -/
def headerLookup (headers : List (String × String)) (key : String) : Option String :=
  (headers.find? (fun kv => strLower kv.1 == strLower key)).map (fun kv => kv.2)

/-- Digit accumulation for `int(s)`. -/
def parseDigitsAux : List Char → Nat → Option Nat
  | [], acc => some acc
  | c :: cs, acc =>
      if c.isDigit then parseDigitsAux cs (acc * 10 + (c.toNat - 48)) else Option.none

/-- An all-digit character list as a number; empty input is rejected. -/
def parseDigits : List Char → Option Nat
  | [] => Option.none
  | cs => parseDigitsAux cs 0

/-- `int(s)` on a header value; `Option.none` models the `ValueError`
raise (leading and trailing whitespace, underscores and non-decimal
bases accepted by the Python built-in do not occur in the numeric
header strings this module reads). -/
def pyInt (s : String) : Option Int :=
  match s.data with
  | '-' :: rest => (parseDigits rest).map (fun n => -(n : Int))
  | '+' :: rest => (parseDigits rest).map (fun n => (n : Int))
  | cs => (parseDigits cs).map (fun n => (n : Int))

/-- The `Response` wrapper: a dict updated with every entry of the
decoded body, plus the three rate-limit attributes parsed from the
headers. The reset date is whatever `email.utils.parsedate` returns,
modelled as an abstract time tuple. -/
structure ApiResponse where
  entries : List (String × Json)
  rate_limit_allowed : Int
  rate_limit_reset_at : Option (List Int)
  rate_limit_remaining : Int

/-- `Response.__init__` (lines 33-38): copy the decoded body into the
dict, then read and parse the three rate-limit headers in source order.
A missing header raises `KeyError`; a non-numeric limit or remaining
count raises `ValueError`; `parsedate` never raises. -/
def mkResponse (parsedate : String → Option (List Int)) (result : List (String × Json))
    (headers : List (String × String)) : Except RaisedError ApiResponse :=
  match headerLookup headers "x-featureratelimit-limit" with
  | Option.none => Except.error ⟨ExcClass.PyKeyError, ["x-featureratelimit-limit"]⟩
  | some limitS =>
    match pyInt limitS with
    | Option.none => Except.error ⟨ExcClass.PyValueError, [limitS]⟩
    | some limit =>
      match headerLookup headers "x-featureratelimit-reset" with
      | Option.none => Except.error ⟨ExcClass.PyKeyError, ["x-featureratelimit-reset"]⟩
      | some resetS =>
        match headerLookup headers "x-featureratelimit-remaining" with
        | Option.none => Except.error ⟨ExcClass.PyKeyError, ["x-featureratelimit-remaining"]⟩
        | some remS =>
          match pyInt remS with
          | Option.none => Except.error ⟨ExcClass.PyValueError, [remS]⟩
          | some rem => Except.ok ⟨result, limit, parsedate resetS, rem⟩

/-- Lines 315-334 of `call_api`, from the transport outcome on: wrap
transport failures in `GeneralError`; decode the body with `json.loads`
(a parameter, as an external collaborator); dispatch an `"error"` body
through `EXCEPTION_CODES` (unmapped statuses fall back to the built-in
`Exception`); otherwise build the `Response` wrapper. -/
def call_api_response (loads : String → Except String Json)
    (parsedate : String → Option (List Int)) (outcome : TransportOutcome) :
    Except RaisedError ApiResponse :=
  match outcome with
  | TransportOutcome.httpError msg =>
      Except.error ⟨ExcClass.GeneralError, ["Unexpected error \x7b0\x7d", msg]⟩
  | TransportOutcome.socketError msg =>
      Except.error ⟨ExcClass.GeneralError, ["Socket Error: " ++ msg]⟩
  | TransportOutcome.ok status headers body =>
    match loads body with
    | Except.error e =>
        Except.error ⟨ExcClass.GeneralError,
          ["Error parsing server response (" ++ toString status ++ ") - " ++ body ++
           ". Got - " ++ e]⟩
    | Except.ok result =>
      if hasKey result "error" then
        let cls := match List.lookup status EXCEPTION_CODES with
          | some c => c
          | Option.none => ExcClass.PyException
        match jGet result "error" with
        | Option.none => Except.error ⟨ExcClass.PyTypeError, ["error"]⟩
        | some errVal =>
          match jGet errVal "message" with
          | Option.none => Except.error ⟨ExcClass.PyKeyError, ["message"]⟩
          | some m =>
              Except.error ⟨cls, ["Error " ++ toString status ++ " - " ++ pyStrOfJson m]⟩
      else
        match result with
        | Json.obj fields => mkResponse parsedate fields headers
        | _ => Except.error ⟨ExcClass.PyTypeError, ["dict update sequence"]⟩

/-- `call_api` (lines 297-334): build the request; when that raises, the
network is never consulted; otherwise submit it (`net` stands for the
pooled HTTP client) and handle the outcome. -/
def call_api (loads : String → Except String Json) (parsedate : String → Option (List Int))
    (method : String) (uri : List String) (params : List (String × PyVal))
    (options : Options) (cfg : CloudinaryConfig) (net : Request → TransportOutcome) :
    Except RaisedError ApiResponse :=
  match call_api_request method uri params options cfg with
  | Except.error e => Except.error e
  | Except.ok req => call_api_response loads parsedate (net req)

/-- `only(source, *keys)` (lines 337-338): the sub-dict of `source` on
the whitelisted keys, in whitelist order (the whitelists at every call
site are duplicate-free, so the dict comprehension is this filter). -/
def only (source : Options) (keys : List String) : Options :=
  keys.filterMap (fun key => (List.lookup key source).map (fun v => (key, v)))

/-- `transformation_string` (lines 341-345): a string is returned
unchanged; anything else goes through the external
`generate_transformation_string` collaborator, a parameter here. -/
def transformation_string (gen : PyVal → String) (transformation : PyVal) : String :=
  match transformation with
  | PyVal.str s => s
  | t => gen t

/-- `resources` (lines 55-62): pop `resource_type` (default image) and
`type`, build the URI, whitelist the listing parameters, delegate. The
embedding stops at the submitted HTTP request; response handling is the
shared `call_api_response`. -/
def resources (options : Options) (cfg : CloudinaryConfig) : Except RaisedError Request :=
  let o1 := popD options "resource_type" (PyVal.str "image")
  let o2 := popD o1.2 "type" PyVal.none
  let uri := ["resources", pyToStr o1.1] ++ (if truthy o2.1 then [pyToStr o2.1] else [])
  let params := only o2.2
    ["next_cursor", "max_results", "prefix", "tags", "context", "moderations", "direction",
     "start_at"]
  call_api_request "get" uri params o2.2 cfg

/-- `resources_by_ids` (lines 79-85): one `public_ids[]` pair per id,
followed by the whitelisted optional parameters. -/
def resources_by_ids (public_ids : List String) (options : Options) (cfg : CloudinaryConfig) :
    Except RaisedError Request :=
  let o1 := popD options "resource_type" (PyVal.str "image")
  let o2 := popD o1.2 "type" (PyVal.str "upload")
  let uri := ["resources", pyToStr o1.1, pyToStr o2.1]
  let params := public_ids.map (fun public_id => ("public_ids[]", PyVal.str public_id))
  let optional := only o2.2 ["tags", "moderations", "context"]
  call_api_request "get" uri (params ++ optional) o2.2 cfg

/-- `delete_resources` (lines 115-121): one `public_ids[]` pair per id,
followed by the whitelisted deletion options. -/
def delete_resources (public_ids : List String) (options : Options) (cfg : CloudinaryConfig) :
    Except RaisedError Request :=
  let o1 := popD options "resource_type" (PyVal.str "image")
  let o2 := popD o1.2 "type" (PyVal.str "upload")
  let uri := ["resources", pyToStr o1.1, pyToStr o2.1]
  let params := public_ids.map (fun public_id => ("public_ids[]", PyVal.str public_id))
  let optional := only o2.2 ["keep_original", "next_cursor", "invalidate"]
  call_api_request "delete" uri (params ++ optional) o2.2 cfg

/-- `delete_derived_resources` (lines 147-151): one
`derived_resource_ids[]` pair per id and nothing else. -/
def delete_derived_resources (derived_resource_ids : List String) (options : Options)
    (cfg : CloudinaryConfig) : Except RaisedError Request :=
  let uri := ["derived_resources"]
  let params := derived_resource_ids.map
    (fun derived_resource_id => ("derived_resource_ids[]", PyVal.str derived_resource_id))
  call_api_request "delete" uri params options cfg

/-- `restore` (lines 230-235): one `public_ids[]` pair per id and
nothing else. -/
def restore (public_ids : List String) (options : Options) (cfg : CloudinaryConfig) :
    Except RaisedError Request :=
  let o1 := popD options "resource_type" (PyVal.str "image")
  let o2 := popD o1.2 "type" (PyVal.str "upload")
  let uri := ["resources", pyToStr o1.1, pyToStr o2.1, "restore"]
  let params := public_ids.map (fun public_id => ("public_ids[]", PyVal.str public_id))
  call_api_request "post" uri params o2.2 cfg

/-- `transformation` (lines 165-167): the transformation argument is
normalized by `transformation_string` into the URI. -/
def transformation (transformation : PyVal) (gen : PyVal → String) (options : Options)
    (cfg : CloudinaryConfig) : Except RaisedError Request :=
  let uri := ["transformations", transformation_string gen transformation]
  call_api_request "get" uri (only options ["next_cursor", "max_results"]) options cfg

/-- `delete_transformation` (lines 170-172). -/
def delete_transformation (transformation : PyVal) (gen : PyVal → String) (options : Options)
    (cfg : CloudinaryConfig) : Except RaisedError Request :=
  let uri := ["transformations", transformation_string gen transformation]
  call_api_request "delete" uri [] options cfg

/-- `update_transformation` (lines 176-183): collect the update set
(`allowed_for_strict`, and a normalized `unsafe_update` when present);
an empty update set raises `Exception("No updates given")` before
`call_api` is reached. -/
def update_transformation (transformation : PyVal) (gen : PyVal → String) (options : Options)
    (cfg : CloudinaryConfig) : Except RaisedError Request :=
  let uri := ["transformations", transformation_string gen transformation]
  let updates := only options ["allowed_for_strict"]
  let updates := match List.lookup "unsafe_update" options with
    | some u => updates ++ [("unsafe_update", PyVal.str (transformation_string gen u))]
    | Option.none => updates
  if updates.isEmpty then Except.error ⟨ExcClass.PyException, ["No updates given"]⟩
  else call_api_request "put" uri updates options cfg

/-! Concrete instantiations used to exercise the definitions: a fully
populated configuration, a configuration with no API secret anywhere, and
fixed stand-ins for the external collaborators. -/

/-- A fully populated process-wide configuration. -/
def cfgDemo : CloudinaryConfig :=
  ⟨PyVal.str "demo", PyVal.str "key", PyVal.str "secret", PyVal.none⟩

/-- A configuration with cloud name and API key set but no API secret. -/
def cfg_no_secret : CloudinaryConfig :=
  ⟨PyVal.str "demo", PyVal.str "key", PyVal.none, PyVal.none⟩

/-- A `json.loads` stand-in that always fails to decode. -/
def loadsFail : String → Except String Json := fun _ => Except.error "Expecting value"

/-- A `json.loads` stand-in decoding every body to an error payload with
message `teapot`. -/
def loads418 : String → Except String Json :=
  fun _ => Except.ok (Json.obj [("error", Json.obj [("message", Json.str "teapot")])])

/-- A `json.loads` stand-in decoding every body to an error payload with
message `Resource not found`. -/
def loads404 : String → Except String Json :=
  fun _ => Except.ok (Json.obj [("error", Json.obj [("message", Json.str "Resource not found")])])

/-- A `json.loads` stand-in decoding every body to a plain success
payload. -/
def loadsPlain : String → Except String Json :=
  fun _ => Except.ok (Json.obj [("ok", Json.bool true)])

/-- An `email.utils.parsedate` stand-in that recognizes no date. -/
def pdNone : String → Option (List Int) := fun _ => Option.none

/-- A transformation-string generator stand-in. -/
def gen0 : PyVal → String := fun _ => ""

/-- A header set carrying all three rate-limit headers. -/
def hdrsFull : List (String × String) :=
  [("x-featureratelimit-limit", "500"),
   ("x-featureratelimit-reset", "Fri, 28 Oct 2016 12:00:00 GMT"),
   ("x-featureratelimit-remaining", "41")]

/-- The request `resources` submits for an unknown option `foo` under
`cfgDemo`. -/
def reqResources : Request :=
  ⟨"GET", "https://api.cloudinary.com/v1_1/demo/resources/image", [], "key:secret", Option.none⟩

/-- The request `resources_by_ids ["a", "b"]` submits under `cfgDemo`. -/
def reqByIds : Request :=
  ⟨"GET", "https://api.cloudinary.com/v1_1/demo/resources/image/upload",
   [("public_ids[]", PyVal.str "a"), ("public_ids[]", PyVal.str "b")],
   "key:secret", Option.none⟩

/-- The request `delete_resources ["a", "b"]` submits under `cfgDemo`. -/
def reqDelRes : Request :=
  ⟨"DELETE", "https://api.cloudinary.com/v1_1/demo/resources/image/upload",
   [("public_ids[]", PyVal.str "a"), ("public_ids[]", PyVal.str "b")],
   "key:secret", Option.none⟩

/-- The request `restore ["a", "b"]` submits under `cfgDemo`. -/
def reqRestore : Request :=
  ⟨"POST", "https://api.cloudinary.com/v1_1/demo/resources/image/upload/restore",
   [("public_ids[]", PyVal.str "a"), ("public_ids[]", PyVal.str "b")],
   "key:secret", Option.none⟩

/-- The request `delete_derived_resources ["d1"]` submits under
`cfgDemo`. -/
def reqDerived : Request :=
  ⟨"DELETE", "https://api.cloudinary.com/v1_1/demo/derived_resources",
   [("derived_resource_ids[]", PyVal.str "d1")], "key:secret", Option.none⟩

/-- The request `transformation "w_100"` submits under `cfgDemo`. -/
def reqTransGet : Request :=
  ⟨"GET", "https://api.cloudinary.com/v1_1/demo/transformations/w_100", [],
   "key:secret", Option.none⟩

/-- The request `delete_transformation "w_100"` submits under
`cfgDemo`. -/
def reqTransDel : Request :=
  ⟨"DELETE", "https://api.cloudinary.com/v1_1/demo/transformations/w_100", [],
   "key:secret", Option.none⟩

/-- A configuration whose upload prefix is customized process-wide. -/
def cfgCustom : CloudinaryConfig :=
  ⟨PyVal.str "demo", PyVal.str "key", PyVal.str "secret", PyVal.str "http://custom"⟩

/-- The configuration `resolve_config` produces when the cloud name is
overridden per call under `cfgDemo`. -/
def rcOverride : ResolvedConfig :=
  ⟨PyVal.str "https://api.cloudinary.com", PyVal.str "override", PyVal.str "key",
   PyVal.str "secret", []⟩

/-- The configuration `resolve_config` produces with no per-call
overrides under `cfgDemo`. -/
def rcDefaults : ResolvedConfig :=
  ⟨PyVal.str "https://api.cloudinary.com", PyVal.str "demo", PyVal.str "key",
   PyVal.str "secret", []⟩

/-- The configuration `resolve_config` produces with no per-call
overrides under `cfgCustom`. -/
def rcCustom : ResolvedConfig :=
  ⟨PyVal.str "http://custom", PyVal.str "demo", PyVal.str "key", PyVal.str "secret", []⟩

/-! Structural lemmas about the embedded operations, shared by the claim
theorems below. -/

/-- The value a pop yields is the stored value when the key is present,
the fallback otherwise. -/
theorem popD_fst (l : Options) (k : String) (d : PyVal) :
    (popD l k d).1 = (List.lookup k l).getD d := by
  unfold popD
  cases List.lookup k l <;> rfl

/-- Erasing one key of an association list leaves lookups of any other
key unchanged. -/
theorem lookup_eraseP_key_ne {β : Type} (l : List (String × β)) (k1 k2 : String)
    (h : (k1 == k2) = false) :
    List.lookup k2 (l.eraseP (fun kv => kv.1 == k1)) = List.lookup k2 l := by
  induction l with
  | nil => rfl
  | cons kv tl ih =>
    by_cases hk : kv.1 == k1
    · have hkv : kv.1 = k1 := eq_of_beq hk
      have hne : (k2 == kv.1) = false := by
        rw [hkv]
        cases hb : k2 == k1 with
        | false => rfl
        | true =>
            rw [eq_of_beq hb] at h
            simp at h
      simp [List.eraseP_cons, hk, List.lookup, hne]
    · simp only [List.eraseP_cons, hk, cond_false]
      cases hb : k2 == kv.1 with
      | false => simp [List.lookup, hb, ih]
      | true => simp [List.lookup, hb]

/-- Popping one key leaves lookups of any other key unchanged. -/
theorem popD_snd_lookup (l : Options) (k1 k2 : String) (d : PyVal)
    (h : (k1 == k2) = false) :
    List.lookup k2 (popD l k1 d).2 = List.lookup k2 l := by
  unfold popD
  cases List.lookup k1 l with
  | none => rfl
  | some v => exact lookup_eraseP_key_ne l k1 k2 h

/-- A successful `call_api_request` transmits exactly the parameter set
it was given. -/
theorem call_api_request_fields (m : String) (uri : List String)
    (params : List (String × PyVal)) (opts : Options) (cfg : CloudinaryConfig) (req : Request)
    (h : call_api_request m uri params opts cfg = Except.ok req) : req.fields = params := by
  unfold call_api_request at h
  cases hrc : resolve_config opts cfg with
  | error e => rw [hrc] at h; cases h
  | ok rc => rw [hrc] at h; cases h; rfl

/-- The URL of a successful `call_api_request` is the slash-join of the
resolved prefix, the version segment, the resolved cloud name, and the
URI segments. -/
theorem call_api_request_url (m : String) (uri : List String)
    (params : List (String × PyVal)) (opts : Options) (cfg : CloudinaryConfig) (req : Request)
    (h : call_api_request m uri params opts cfg = Except.ok req) :
    ∃ a c, req.url = String.intercalate "/" ([a, "v1_1", c] ++ uri) := by
  unfold call_api_request at h
  cases hrc : resolve_config opts cfg with
  | error e => rw [hrc] at h; cases h
  | ok rc => rw [hrc] at h; cases h; exact ⟨pyToStr rc.pfx, pyToStr rc.cloud_name, rfl⟩

/-- Every entry of `only source keys` has its key in `keys` and its
value stored in `source` under that key. -/
theorem mem_only (source : Options) (keys : List String) (kv : String × PyVal)
    (h : kv ∈ only source keys) : kv.1 ∈ keys ∧ List.lookup kv.1 source = some kv.2 := by
  unfold only at h
  obtain ⟨key, hkey, hf⟩ := List.mem_filterMap.mp h
  cases hl : List.lookup key source with
  | none => rw [hl] at hf; cases hf
  | some v =>
      rw [hl] at hf
      cases hf
      exact ⟨hkey, hl⟩

/-- A key outside the whitelist never appears among the keys of
`only source keys`. -/
theorem not_mem_keys_only (source : Options) (keys : List String) (k : String)
    (hk : k ∉ keys) : k ∉ (only source keys).map Prod.fst := by
  intro hmem
  obtain ⟨kv, hkv, hfst⟩ := List.mem_map.mp hmem
  exact hk (hfst ▸ (mem_only source keys kv hkv).1)

/-- Slash-joining five segments. -/
theorem intercalate_slash_five (a b c d e : String) :
    String.intercalate "/" [a, b, c, d, e] = a ++ "/" ++ b ++ "/" ++ c ++ "/" ++ d ++ "/" ++ e := by
  simp [String.intercalate, String.intercalate.go, String.append_assoc]

/-- Joining two strings with a separator. -/
theorem intercalate_pair (s a b : String) :
    String.intercalate s [a, b] = a ++ s ++ b := by
  simp [String.intercalate, String.intercalate.go]

/-- Folding the literal path fragment around `transformations`. -/
theorem slash_transformations (x : String) :
    "/" ++ ("transformations" ++ ("/" ++ x)) = "/transformations/" ++ x := by
  rw [← String.append_assoc, ← String.append_assoc]
  rfl

/-- Filtering a parameter set on a repeated key keeps exactly the
repeated-key block when the remaining entries all use other keys. -/
theorem filter_key_append (key : String) (vals rest : List (String × PyVal))
    (hvals : ∀ kv ∈ vals, (kv.1 == key) = true)
    (hrest : ∀ kv ∈ rest, (kv.1 == key) = false) :
    (vals ++ rest).filter (fun kv => kv.1 == key) = vals := by
  rw [List.filter_append, List.filter_eq_self.mpr hvals,
    List.filter_eq_nil_iff.mpr (fun kv hm => by simp [hrest kv hm]), List.append_nil]

/-- A successful `resolve_config` resolves each of the four values from
the per-call override when present, from the process-wide configuration
otherwise, with the built-in default only for a falsy upload prefix. -/
theorem resolve_config_ok (options : Options) (cfg : CloudinaryConfig) (rc : ResolvedConfig)
    (h : resolve_config options cfg = Except.ok rc) :
    rc.pfx = (if truthy ((List.lookup "upload_prefix" options).getD cfg.upload_prefix)
              then (List.lookup "upload_prefix" options).getD cfg.upload_prefix
              else PyVal.str "https://api.cloudinary.com") ∧
    rc.cloud_name = (List.lookup "cloud_name" options).getD cfg.cloud_name ∧
    rc.api_key = (List.lookup "api_key" options).getD cfg.api_key ∧
    rc.api_secret = (List.lookup "api_secret" options).getD cfg.api_secret := by
  simp only [resolve_config] at h
  split at h
  · exact Except.noConfusion h
  · split at h
    · exact Except.noConfusion h
    · split at h
      · rename_i hpfx
        cases h
        dsimp only
        refine ⟨?_, ?_, ?_, ?_⟩
        · rw [popD_fst] at hpfx ⊢
          rw [if_pos hpfx]
        · rw [popD_fst, popD_snd_lookup _ _ _ _ (by decide)]
        · rw [popD_fst, popD_snd_lookup _ _ _ _ (by decide),
            popD_snd_lookup _ _ _ _ (by decide)]
        · rw [popD_fst, popD_snd_lookup _ _ _ _ (by decide),
            popD_snd_lookup _ _ _ _ (by decide), popD_snd_lookup _ _ _ _ (by decide)]
      · rename_i hpfx
        cases h
        dsimp only
        refine ⟨?_, ?_, ?_, ?_⟩
        · rw [popD_fst] at hpfx
          rw [if_neg hpfx]
        · rw [popD_fst, popD_snd_lookup _ _ _ _ (by decide)]
        · rw [popD_fst, popD_snd_lookup _ _ _ _ (by decide),
            popD_snd_lookup _ _ _ _ (by decide)]
        · rw [popD_fst, popD_snd_lookup _ _ _ _ (by decide),
            popD_snd_lookup _ _ _ _ (by decide), popD_snd_lookup _ _ _ _ (by decide)]

/-! Claim theorems. -/

/-- C1: a missing cloud name or API key raises a configuration error
before any network attempt (the result is the same for every network
behaviour), but the api_secret guard of line 304 re-tests `cloud_name`
and is therefore dead code: with the secret absent per call and in the
process-wide configuration, `resolve_config` succeeds with
`api_secret = None` and the network outcome determines the result, so
the request is attempted instead of a configuration error being
raised. -/
theorem C1_api_secret_check_is_dead_code :
    (∀ net loads pd, call_api loads pd "get" ["ping"] [] []
        ⟨PyVal.none, PyVal.str "key", PyVal.str "secret", PyVal.none⟩ net
        = Except.error ⟨ExcClass.PyException, ["Must supply cloud_name"]⟩)
  ∧ (∀ net loads pd, call_api loads pd "get" ["ping"] [] []
        ⟨PyVal.str "demo", PyVal.none, PyVal.str "secret", PyVal.none⟩ net
        = Except.error ⟨ExcClass.PyException, ["Must supply api_key"]⟩)
  ∧ resolve_config [] cfg_no_secret
      = Except.ok ⟨PyVal.str "https://api.cloudinary.com", PyVal.str "demo", PyVal.str "key",
          PyVal.none, []⟩
  ∧ call_api loadsFail pdNone "get" ["ping"] [] [] cfg_no_secret
        (fun _ => TransportOutcome.socketError "probe")
      = Except.error ⟨ExcClass.GeneralError, ["Socket Error: probe"]⟩ :=
  ⟨fun _ _ _ => rfl, fun _ _ _ => rfl, rfl, rfl⟩

/-- C2 counterexample: at status 418 (unmapped) with an error body, the
raised exception class is the Python built-in `Exception`, which is not
the module base `Error` (nor an instance of it). -/
theorem C2_unmapped_status_counterexample :
    call_api_response loads418 pdNone (TransportOutcome.ok 418 [] "body")
      = Except.error ⟨ExcClass.PyException, ["Error 418 - teapot"]⟩
  ∧ isInstanceOf ExcClass.PyException ExcClass.Error = false := ⟨rfl, rfl⟩

/-- C2 (amended): for an error body with an unmapped HTTP status the
raised exception is the Python built-in `Exception` (the ancestor of the
module taxonomy), not the module base `Error`. -/
theorem C2_unmapped_status_raises_builtin_exception
    (loads : String → Except String Json) (pd : String → Option (List Int))
    (status : Nat) (headers : List (String × String)) (body : String)
    (result errVal m : Json)
    (hmap : List.lookup status EXCEPTION_CODES = Option.none)
    (hload : loads body = Except.ok result)
    (herr : jGet result "error" = some errVal)
    (hmsg : jGet errVal "message" = some m) :
    call_api_response loads pd (TransportOutcome.ok status headers body)
      = Except.error ⟨ExcClass.PyException,
          ["Error " ++ toString status ++ " - " ++ pyStrOfJson m]⟩ := by
  simp [call_api_response, hload, hasKey, herr, hmsg, hmap]

/-- C2 witness at status 999. -/
theorem C2_unmapped_status_witness :
    call_api_response loads418 pdNone (TransportOutcome.ok 999 [] "body")
      = Except.error ⟨ExcClass.PyException, ["Error 999 - teapot"]⟩ :=
  C2_unmapped_status_raises_builtin_exception loads418 pdNone 999 [] "body"
    (Json.obj [("error", Json.obj [("message", Json.str "teapot")])])
    (Json.obj [("message", Json.str "teapot")]) (Json.str "teapot") rfl rfl rfl rfl

/-- C3: for each of the seven mapped status codes, an error body raises
the mapped subtype with message `Error {status} - {message}`; at 404 the
mapped subtype is `NotFound`. -/
theorem C3_mapped_status_error_subtype
    (loads : String → Except String Json) (pd : String → Option (List Int))
    (status : Nat) (cls : ExcClass) (headers : List (String × String)) (body : String)
    (result errVal : Json) (msg : String)
    (hmap : List.lookup status EXCEPTION_CODES = some cls)
    (hload : loads body = Except.ok result)
    (herr : jGet result "error" = some errVal)
    (hmsg : jGet errVal "message" = some (Json.str msg)) :
    call_api_response loads pd (TransportOutcome.ok status headers body)
      = Except.error ⟨cls, ["Error " ++ toString status ++ " - " ++ msg]⟩
  ∧ (status = 404 → cls = ExcClass.NotFound) := by
  constructor
  · simp [call_api_response, hload, hasKey, herr, hmsg, hmap, pyStrOfJson]
  · intro h404
    subst h404
    rw [show List.lookup 404 EXCEPTION_CODES = some ExcClass.NotFound from rfl] at hmap
    exact (Option.some_inj.mp hmap).symm

/-- C3 witness at status 404. -/
theorem C3_notfound_404_witness :
    call_api_response loads404 pdNone (TransportOutcome.ok 404 [] "body")
      = Except.error ⟨ExcClass.NotFound, ["Error 404 - Resource not found"]⟩ :=
  (C3_mapped_status_error_subtype loads404 pdNone 404 ExcClass.NotFound [] "body"
    (Json.obj [("error", Json.obj [("message", Json.str "Resource not found")])])
    (Json.obj [("message", Json.str "Resource not found")]) "Resource not found"
    rfl rfl rfl rfl).1

/-- C9: a transport-level failure raises `GeneralError`, and the
rendered exception text contains the underlying cause. -/
theorem C9_transport_error_wrapped (loads : String → Except String Json)
    (pd : String → Option (List Int)) (c : String) :
    (call_api_response loads pd (TransportOutcome.httpError c)
       = Except.error ⟨ExcClass.GeneralError, ["Unexpected error \x7b0\x7d", c]⟩)
  ∧ (∃ pre post, renderArgs ["Unexpected error \x7b0\x7d", c] = pre ++ c ++ post)
  ∧ (call_api_response loads pd (TransportOutcome.socketError c)
       = Except.error ⟨ExcClass.GeneralError, ["Socket Error: " ++ c]⟩)
  ∧ (∃ pre, "Socket Error: " ++ c = pre ++ c) := by
  refine ⟨rfl, ⟨"(\x27Unexpected error \x7b0\x7d\x27, \x27", "\x27)", ?_⟩, rfl,
    ⟨"Socket Error: ", rfl⟩⟩
  show "(" ++ String.intercalate ", "
      (List.map pyRepr ["Unexpected error \x7b0\x7d", c]) ++ ")" = _
  rw [List.map, List.map, List.map, intercalate_pair]
  simp only [pyRepr, String.append_assoc]
  rfl

/-- C4: with no `"error"` key and all three rate-limit headers present
and parseable, the call returns a wrapper exposing every key/value of
the decoded body plus the parsed limit, parsed reset date and parsed
remaining count; when any of the three headers is absent an error is
raised instead of a default being substituted. -/
theorem C4_response_wrapper (loads : String → Except String Json)
    (pd : String → Option (List Int)) (status : Nat) (headers : List (String × String))
    (body : String) (fields : List (String × Json)) (lS rS remS : String) (li ri : Int)
    (hload : loads body = Except.ok (Json.obj fields))
    (hnoerr : List.lookup "error" fields = Option.none)
    (h1 : headerLookup headers "x-featureratelimit-limit" = some lS)
    (h2 : headerLookup headers "x-featureratelimit-reset" = some rS)
    (h3 : headerLookup headers "x-featureratelimit-remaining" = some remS)
    (hl : pyInt lS = some li) (hr : pyInt remS = some ri) :
    call_api_response loads pd (TransportOutcome.ok status headers body)
      = Except.ok ⟨fields, li, pd rS, ri⟩
  ∧ (∀ headers2 body2 fields2, loads body2 = Except.ok (Json.obj fields2) →
      List.lookup "error" fields2 = Option.none →
      (headerLookup headers2 "x-featureratelimit-limit" = Option.none ∨
       headerLookup headers2 "x-featureratelimit-reset" = Option.none ∨
       headerLookup headers2 "x-featureratelimit-remaining" = Option.none) →
      ∃ e, call_api_response loads pd (TransportOutcome.ok status headers2 body2)
             = Except.error e) := by
  constructor
  · simp [call_api_response, hload, hasKey, jGet, hnoerr, mkResponse, h1, h2, h3, hl, hr]
  · intro headers2 body2 fields2 hload2 hno2 hmiss
    simp only [call_api_response, hload2, hasKey, jGet, hno2, Option.isSome_none,
      Bool.false_eq_true, if_false]
    rcases hmiss with hm | hm | hm
    · simp [mkResponse, hm]
    · cases hL : headerLookup headers2 "x-featureratelimit-limit" with
      | none => simp [mkResponse, hL]
      | some v =>
        cases hpi : pyInt v with
        | none => simp [mkResponse, hL, hpi]
        | some n => simp [mkResponse, hL, hpi, hm]
    · cases hL : headerLookup headers2 "x-featureratelimit-limit" with
      | none => simp [mkResponse, hL]
      | some v =>
        cases hpi : pyInt v with
        | none => simp [mkResponse, hL, hpi]
        | some n =>
          cases hR : headerLookup headers2 "x-featureratelimit-reset" with
          | none => simp [mkResponse, hL, hpi, hR]
          | some w => simp [mkResponse, hL, hpi, hR, hm]

/-- C4 witness: a populated header set yields the wrapper; an empty
header set yields an error. -/
theorem C4_response_wrapper_witness :
    call_api_response loadsPlain pdNone (TransportOutcome.ok 200 hdrsFull "body")
      = Except.ok ⟨[("ok", Json.bool true)], 500, Option.none, 41⟩
  ∧ (∃ e, call_api_response loadsPlain pdNone (TransportOutcome.ok 200 [] "body")
        = Except.error e) :=
  ⟨(C4_response_wrapper loadsPlain pdNone 200 hdrsFull "body" [("ok", Json.bool true)]
      "500" "Fri, 28 Oct 2016 12:00:00 GMT" "41" 500 41 rfl rfl (by decide) (by decide)
      (by decide) (by decide) (by decide)).1,
   (C4_response_wrapper loadsPlain pdNone 200 hdrsFull "body" [("ok", Json.bool true)]
      "500" "Fri, 28 Oct 2016 12:00:00 GMT" "41" 500 41 rfl rfl (by decide) (by decide)
      (by decide) (by decide) (by decide)).2
     [] "body" [("ok", Json.bool true)] rfl rfl (Or.inl rfl)⟩

/-- C5: every configuration value is resolved from the per-call option
when supplied, from the process-wide configuration otherwise; the upload
prefix alone falls back to the built-in default, while the three
credentials resolve to the configuration value verbatim (no default
substituted) when no override is supplied. -/
theorem C5_config_resolution_precedence (options : Options) (cfg : CloudinaryConfig)
    (rc : ResolvedConfig) :
    ( (∀ v, List.lookup "upload_prefix" options = some v → truthy v = true →
        resolve_config options cfg = Except.ok rc → rc.pfx = v)
    ∧ (List.lookup "upload_prefix" options = Option.none → truthy cfg.upload_prefix = true →
        resolve_config options cfg = Except.ok rc → rc.pfx = cfg.upload_prefix)
    ∧ (List.lookup "upload_prefix" options = Option.none → truthy cfg.upload_prefix = false →
        resolve_config options cfg = Except.ok rc →
        rc.pfx = PyVal.str "https://api.cloudinary.com") )
  ∧ ( (∀ v, List.lookup "cloud_name" options = some v →
        resolve_config options cfg = Except.ok rc → rc.cloud_name = v)
    ∧ (List.lookup "cloud_name" options = Option.none →
        resolve_config options cfg = Except.ok rc → rc.cloud_name = cfg.cloud_name) )
  ∧ ( (∀ v, List.lookup "api_key" options = some v →
        resolve_config options cfg = Except.ok rc → rc.api_key = v)
    ∧ (List.lookup "api_key" options = Option.none →
        resolve_config options cfg = Except.ok rc → rc.api_key = cfg.api_key) )
  ∧ ( (∀ v, List.lookup "api_secret" options = some v →
        resolve_config options cfg = Except.ok rc → rc.api_secret = v)
    ∧ (List.lookup "api_secret" options = Option.none →
        resolve_config options cfg = Except.ok rc → rc.api_secret = cfg.api_secret) ) := by
  refine ⟨⟨?_, ?_, ?_⟩, ⟨?_, ?_⟩, ⟨?_, ?_⟩, ⟨?_, ?_⟩⟩
  · intro v hv htr hok
    have h := (resolve_config_ok options cfg rc hok).1
    rw [hv] at h
    simpa [htr] using h
  · intro hv htr hok
    have h := (resolve_config_ok options cfg rc hok).1
    rw [hv] at h
    simpa [htr] using h
  · intro hv htr hok
    have h := (resolve_config_ok options cfg rc hok).1
    rw [hv] at h
    simpa [htr] using h
  · intro v hv hok
    have h := (resolve_config_ok options cfg rc hok).2.1
    rw [hv] at h
    simpa using h
  · intro hv hok
    have h := (resolve_config_ok options cfg rc hok).2.1
    rw [hv] at h
    simpa using h
  · intro v hv hok
    have h := (resolve_config_ok options cfg rc hok).2.2.1
    rw [hv] at h
    simpa using h
  · intro hv hok
    have h := (resolve_config_ok options cfg rc hok).2.2.1
    rw [hv] at h
    simpa using h
  · intro v hv hok
    have h := (resolve_config_ok options cfg rc hok).2.2.2
    rw [hv] at h
    simpa using h
  · intro hv hok
    have h := (resolve_config_ok options cfg rc hok).2.2.2
    rw [hv] at h
    simpa using h

/-- C5 witness: a per-call cloud name wins over `cfgDemo`; with no
overrides the configuration values win and the prefix defaults; a
process-wide prefix wins over the built-in default. -/
theorem C5_config_resolution_witness :
    rcOverride.cloud_name = PyVal.str "override"
  ∧ rcDefaults.pfx = PyVal.str "https://api.cloudinary.com"
  ∧ rcDefaults.cloud_name = cfgDemo.cloud_name
  ∧ rcDefaults.api_secret = cfgDemo.api_secret
  ∧ rcCustom.pfx = cfgCustom.upload_prefix :=
  ⟨(C5_config_resolution_precedence [("cloud_name", PyVal.str "override")] cfgDemo
      rcOverride).2.1.1 (PyVal.str "override") rfl rfl,
   (C5_config_resolution_precedence [] cfgDemo rcDefaults).1.2.2 rfl rfl rfl,
   (C5_config_resolution_precedence [] cfgDemo rcDefaults).2.1.2 rfl rfl,
   (C5_config_resolution_precedence [] cfgDemo rcDefaults).2.2.2.2 rfl rfl,
   (C5_config_resolution_precedence [] cfgCustom rcCustom).1.2.1 rfl rfl rfl⟩

/-- C6: a caller-supplied option whose key is outside the whitelist of
`resources` never appears in the parameter set submitted to the HTTP
request (`call_api` transmits the whitelisted parameter set
unchanged). -/
theorem C6_unknown_options_never_transmitted (options : Options) (cfg : CloudinaryConfig)
    (k : String) (req : Request) (hreq : resources options cfg = Except.ok req)
    (hk : k ∉ ["next_cursor", "max_results", "prefix", "tags", "context", "moderations",
               "direction", "start_at"]) :
    k ∉ req.fields.map Prod.fst := by
  unfold resources at hreq
  rw [call_api_request_fields _ _ _ _ _ _ hreq]
  exact not_mem_keys_only _ _ _ hk

/-- C6 witness: the unknown option `foo` is dropped. -/
theorem C6_unknown_options_witness : "foo" ∉ reqResources.fields.map Prod.fst :=
  C6_unknown_options_never_transmitted [("foo", PyVal.str "bar")] cfgDemo "foo" reqResources
    rfl (by decide)

/-- C7: for each list-valued identifier argument the submitted parameter
set carries exactly one repeated-key pair per input element, in input
order: filtering the submitted parameters on the repeated key recovers
the encoded input list exactly. -/
theorem C7_list_params_order (public_ids derived_ids : List String) (options : Options)
    (cfg : CloudinaryConfig) :
    (∀ req, resources_by_ids public_ids options cfg = Except.ok req →
       req.fields.filter (fun kv => kv.1 == "public_ids[]")
         = public_ids.map (fun p => ("public_ids[]", PyVal.str p)))
  ∧ (∀ req, delete_resources public_ids options cfg = Except.ok req →
       req.fields.filter (fun kv => kv.1 == "public_ids[]")
         = public_ids.map (fun p => ("public_ids[]", PyVal.str p)))
  ∧ (∀ req, restore public_ids options cfg = Except.ok req →
       req.fields = public_ids.map (fun p => ("public_ids[]", PyVal.str p)))
  ∧ (∀ req, delete_derived_resources derived_ids options cfg = Except.ok req →
       req.fields = derived_ids.map (fun d => ("derived_resource_ids[]", PyVal.str d))) := by
  refine ⟨?_, ?_, ?_, ?_⟩
  · intro req hreq
    unfold resources_by_ids at hreq
    rw [call_api_request_fields _ _ _ _ _ _ hreq]
    refine filter_key_append _ _ _ ?_ ?_
    · intro kv hkv
      obtain ⟨p, _, hp⟩ := List.mem_map.mp hkv
      rw [← hp]
      rfl
    · intro kv hkv
      have hmem : kv.1 = "tags" ∨ kv.1 = "moderations" ∨ kv.1 = "context" := by
        simpa using (mem_only _ _ _ hkv).1
      rcases hmem with h | h | h <;> rw [h] <;> rfl
  · intro req hreq
    unfold delete_resources at hreq
    rw [call_api_request_fields _ _ _ _ _ _ hreq]
    refine filter_key_append _ _ _ ?_ ?_
    · intro kv hkv
      obtain ⟨p, _, hp⟩ := List.mem_map.mp hkv
      rw [← hp]
      rfl
    · intro kv hkv
      have hmem : kv.1 = "keep_original" ∨ kv.1 = "next_cursor" ∨ kv.1 = "invalidate" := by
        simpa using (mem_only _ _ _ hkv).1
      rcases hmem with h | h | h <;> rw [h] <;> rfl
  · intro req hreq
    unfold restore at hreq
    exact call_api_request_fields _ _ _ _ _ _ hreq
  · intro req hreq
    unfold delete_derived_resources at hreq
    exact call_api_request_fields _ _ _ _ _ _ hreq

/-- C7 witness on two public ids and one derived-resource id. -/
theorem C7_list_params_witness :
    reqByIds.fields.filter (fun kv => kv.1 == "public_ids[]")
      = [("public_ids[]", PyVal.str "a"), ("public_ids[]", PyVal.str "b")]
  ∧ reqDelRes.fields.filter (fun kv => kv.1 == "public_ids[]")
      = [("public_ids[]", PyVal.str "a"), ("public_ids[]", PyVal.str "b")]
  ∧ reqRestore.fields = [("public_ids[]", PyVal.str "a"), ("public_ids[]", PyVal.str "b")]
  ∧ reqDerived.fields = [("derived_resource_ids[]", PyVal.str "d1")] :=
  ⟨(C7_list_params_order ["a", "b"] ["d1"] [] cfgDemo).1 reqByIds rfl,
   (C7_list_params_order ["a", "b"] ["d1"] [] cfgDemo).2.1 reqDelRes rfl,
   (C7_list_params_order ["a", "b"] ["d1"] [] cfgDemo).2.2.1 reqRestore rfl,
   (C7_list_params_order ["a", "b"] ["d1"] [] cfgDemo).2.2.2 reqDerived rfl⟩

/-- C8: `update_transformation` with neither `allowed_for_strict` nor
`unsafe_update` among the options raises the client-side validation
error for every configuration, so `call_api` is never reached and no
network request is made. -/
theorem C8_update_transformation_no_updates (t : PyVal) (gen : PyVal → String)
    (options : Options) (cfg : CloudinaryConfig)
    (h1 : List.lookup "allowed_for_strict" options = Option.none)
    (h2 : List.lookup "unsafe_update" options = Option.none) :
    update_transformation t gen options cfg
      = Except.error ⟨ExcClass.PyException, ["No updates given"]⟩ := by
  simp [update_transformation, only, h1, h2]

/-- C8 witness: an unrelated option alone triggers the validation
error. -/
theorem C8_update_transformation_witness :
    update_transformation (PyVal.str "w_100") gen0 [("foo", PyVal.str "bar")] cfgDemo
      = Except.error ⟨ExcClass.PyException, ["No updates given"]⟩ :=
  C8_update_transformation_no_updates (PyVal.str "w_100") gen0 [("foo", PyVal.str "bar")]
    cfgDemo rfl rfl

/-- C10: `transformation_string` returns a string input unchanged, and
the transformation operations place that raw string verbatim as the
final URI segment after `transformations`. -/
theorem C10_transformation_string_verbatim (gen : PyVal → String) (s : String) :
    transformation_string gen (PyVal.str s) = s
  ∧ (∀ options cfg req, transformation (PyVal.str s) gen options cfg = Except.ok req →
       ∃ p, req.url = p ++ "/transformations/" ++ s)
  ∧ (∀ options cfg req, delete_transformation (PyVal.str s) gen options cfg = Except.ok req →
       ∃ p, req.url = p ++ "/transformations/" ++ s) := by
  refine ⟨rfl, ?_, ?_⟩
  · intro options cfg req hreq
    unfold transformation at hreq
    obtain ⟨a, c, hurl⟩ := call_api_request_url _ _ _ _ _ _ hreq
    refine ⟨a ++ "/" ++ "v1_1" ++ "/" ++ c, ?_⟩
    rw [hurl, show ([a, "v1_1", c] ++ ["transformations", transformation_string gen (PyVal.str s)] : List String)
        = [a, "v1_1", c, "transformations", s] from rfl, intercalate_slash_five]
    simp only [String.append_assoc]
    rw [slash_transformations]
  · intro options cfg req hreq
    unfold delete_transformation at hreq
    obtain ⟨a, c, hurl⟩ := call_api_request_url _ _ _ _ _ _ hreq
    refine ⟨a ++ "/" ++ "v1_1" ++ "/" ++ c, ?_⟩
    rw [hurl, show ([a, "v1_1", c] ++ ["transformations", transformation_string gen (PyVal.str s)] : List String)
        = [a, "v1_1", c, "transformations", s] from rfl, intercalate_slash_five]
    simp only [String.append_assoc]
    rw [slash_transformations]

/-- C10 witness on the raw transformation string `w_100`. -/
theorem C10_transformation_witness :
    transformation_string gen0 (PyVal.str "w_100") = "w_100"
  ∧ (∃ p, reqTransGet.url = p ++ "/transformations/" ++ "w_100")
  ∧ (∃ p, reqTransDel.url = p ++ "/transformations/" ++ "w_100") :=
  ⟨(C10_transformation_string_verbatim gen0 "w_100").1,
   (C10_transformation_string_verbatim gen0 "w_100").2.1 [] cfgDemo reqTransGet rfl,
   (C10_transformation_string_verbatim gen0 "w_100").2.2 [] cfgDemo reqTransDel rfl⟩

end Cloudinary
